import Mathlib

/-!
# Verification of the wng-CombatExtender combat-options module

Shallow embedding of `src/scripts/combat-options/dialog.js` and
`src/scripts/combat-options/turn-effects.js`.

Conventions of the embedding:
* JavaScript numeric dialog fields are modelled as `Option Int`: `none` is
  `undefined`/absent, `some n` is a finite number.  `Number(x ?? 0)` becomes
  `Option.getD x 0`.
* Fallible or external effects (host `Roll` evaluation, DOM access) are inputs
  of the embedded functions.
* The helper modules `constants.js`, `measurement.js`, `engagement.js`,
  `logging.js` and `permissions.js` are not part of the source tree that was
  provided; the small pieces of them that the dialog logic reads (cover, vision
  and size tables and the normalizing helpers) are modelled from the spec and
  from the option labels that `dialog.js` itself renders.  The engagement test
  `getEngagedEffect(actor)` is abstracted to a boolean dialog input.
-/

namespace CombatExtender

/-! ## Tables and normalizers modelled from the spec (constants.js / measurement.js) -/

/-- Modelled from the spec: `normalizeCoverKey` (measurement.js, not under
`src/`).  The cover select in dialog.js offers exactly the keys `""`, `"half"`
and `"full"`; the normalizer keeps a valid cover key and maps anything else to
the empty string. -/
def normalizeCoverKey (s : String) : String :=
  if s = "half" ∨ s = "full" then s else ""

/-- Modelled from the spec: `COVER_DIFFICULTY_VALUES` / `getCoverDifficulty`
(constants.js / measurement.js, not under `src/`).  Per the option labels in
dialog.js: half cover is +1 DN, full cover is +2 DN, no cover is 0. -/
def getCoverDifficulty (s : String) : Int :=
  if s = "half" then 1 else if s = "full" then 2 else 0

/-- Modelled from the spec: `normalizeSizeKey` (measurement.js, not under
`src/`).  The size select in dialog.js offers the keys `""`, `"tiny"`,
`"small"`, `"large"`, `"huge"`, `"gargantuan"`; the normalizer keeps a valid
size key and maps anything else (including the empty selection) to the empty
string, so that an empty selection is not counted as an active option by
`combatOptionsActive`. -/
def normalizeSizeKey (s : String) : String :=
  if s = "tiny" ∨ s = "small" ∨ s = "large" ∨ s = "huge" ∨ s = "gargantuan"
  then s else ""

/-- A vision-penalty table entry: the melee and ranged DN penalties. -/
structure VisionPenalty where
  melee : Int
  ranged : Int
deriving DecidableEq, Repr

/-- Modelled from the spec: the `VISION_PENALTIES` table (constants.js, not
under `src/`).  Per the option labels in dialog.js: twilight +1 DN ranged;
dim light +2 DN ranged / +1 DN melee; heavy fog +3 DN ranged / +2 DN melee;
darkness +4 DN ranged / +3 DN melee. -/
def VISION_PENALTIES (key : String) : Option VisionPenalty :=
  if key = "twilight" then some ⟨0, 1⟩
  else if key = "dim" then some ⟨1, 2⟩
  else if key = "heavy" then some ⟨2, 3⟩
  else if key = "darkness" then some ⟨3, 4⟩
  else none

/-- A size-modifier table entry: the dice-pool bonus and the DN penalty. -/
structure SizeModifier where
  pool : Int
  difficulty : Int
deriving DecidableEq, Repr

/-- Modelled from the spec: the `SIZE_MODIFIER_OPTIONS` table (constants.js,
not under `src/`).  Per the option labels in dialog.js: tiny +2 DN, small
+1 DN, large +1 die, huge +2 dice, gargantuan +3 dice. -/
def SIZE_MODIFIER_OPTIONS (key : String) : Option SizeModifier :=
  if key = "tiny" then some ⟨0, 2⟩
  else if key = "small" then some ⟨0, 1⟩
  else if key = "large" then some ⟨1, 0⟩
  else if key = "huge" then some ⟨2, 0⟩
  else if key = "gargantuan" then some ⟨3, 0⟩
  else none

/-! ## The dialog data model -/

/-- A partially present `{value, dice}` pair, as stored in `fields.ed` and
`fields.ap` before the `mergeObject` normalization. -/
structure PartialED where
  value : Option Int := none
  dice : Option Int := none
deriving DecidableEq, Repr

/-- The weapon-dialog `fields` object: the slice of it read or written by the
combat-options code.  Numeric fields are `Option Int` (`none` = `undefined`);
select fields are raw strings; checkbox fields are booleans. -/
structure Fields where
  pool : Option Int := none
  difficulty : Option Int := none
  damage : Option Int := none
  wrath : Option Int := none
  ed : Option PartialED := none
  ap : Option PartialED := none
  range : Option String := none
  allOutAttack : Bool := false
  charging : Bool := false
  aim : Bool := false
  brace : Bool := false
  pinning : Bool := false
  pistolsInMelee : Bool := false
  disarm : Bool := false
  cover : String := ""
  visionPenalty : String := ""
  sizeModifier : String := ""
  calledShotEnabled : Bool := false
  calledShotSize : String := ""
deriving DecidableEq, Repr

/-- The manual-override snapshot `dialog._combatOptionsManualOverrides` built
by `trackManualOverrideSnapshots` (dialog.js lines 660-715): each key is
present exactly when the user manually edited the corresponding input. -/
structure ManualOverrides where
  pool : Option Int := none
  difficulty : Option Int := none
  damage : Option Int := none
  wrath : Option Int := none
  ed : Option (Int × Int) := none
  ap : Option (Int × Int) := none
deriving DecidableEq, Repr

/-- `Object.keys(manualOverridesRaw).length > 0` (dialog.js line 437). -/
def ManualOverrides.hasAny (m : ManualOverrides) : Bool :=
  m.pool.isSome || m.difficulty.isSome || m.damage.isSome ||
  m.wrath.isSome || m.ed.isSome || m.ap.isSome

/-- The delta record `dialog._combatExtenderDelta` (dialog.js lines 576-589). -/
structure Delta where
  pool : Int
  difficulty : Int
  damage : Int
  edValue : Int
  edDice : Int
  apValue : Int
  apDice : Int
deriving DecidableEq, Repr

/-- The weapon-dialog state visible to `applyCombatExtender`:
`dialog.weapon` (presence and the traits read), the engagement status of the
attacking actor, the `fields` object, and the bookkeeping properties the module
stores on the dialog (`_combatExtenderSystemBaseline`,
`_combatOptionsManualOverrides`, `_combatOptionsDefaultCover`,
`_combatExtenderDelta`, and the `flags.combatExtender.delta` written by the
registered submission script). -/
structure Dialog where
  hasWeapon : Bool := true
  weaponIsRanged : Bool := false
  weaponIsMelee : Bool := false
  weaponHasPistol : Bool := false
  actorEngaged : Bool := false
  fields : Fields := {}
  systemBaseline : Option Fields := none
  manualOverrides : Option ManualOverrides := none
  defaultCover : Option String := none
  delta : Option Delta := none
  flagsDelta : Option (Option Delta) := none
deriving DecidableEq, Repr

/-! ## combatOptionsActive (dialog.js lines 131-148) -/

/-- `combatOptionsActive(fields)`: true when any combat option is selected.
String options count as active by JavaScript truthiness, i.e. when the
(normalized, where the code normalizes) key is a non-empty string. -/
def combatOptionsActive (f : Fields) : Bool :=
  f.allOutAttack || f.charging || f.aim || f.brace || f.pinning ||
  (normalizeCoverKey f.cover != "") || f.pistolsInMelee ||
  (normalizeSizeKey f.sizeModifier != "") || (f.visionPenalty != "") ||
  f.disarm || f.calledShotEnabled || (normalizeSizeKey f.calledShotSize != "")

/-! ## applyCombatExtender (dialog.js lines 396-658), in stages -/

/-- `x !== undefined ? x : current`: the per-key baseline re-application
pattern of dialog.js lines 405-410. -/
def keepOr {α : Type} (b cur : Option α) : Option α :=
  match b with
  | some v => some v
  | none => cur

/-- `foundry.utils.mergeObject({ value: 0, dice: 0 }, src ?? {})`
(dialog.js lines 413-414): missing keys are filled with 0. -/
def mergeED (e : Option PartialED) : PartialED :=
  match e with
  | none => ⟨some 0, some 0⟩
  | some p => ⟨some (p.value.getD 0), some (p.dice.getD 0)⟩

/-- Dialog.js lines 402-411: if `_combatExtenderSystemBaseline` is set, each of
the six numeric keys that is defined in the baseline is copied back over
`fields`; the option checkboxes and selects are not touched. -/
def restoredFields (d : Dialog) : Fields :=
  match d.systemBaseline with
  | none => d.fields
  | some sb =>
    { d.fields with
      pool := keepOr sb.pool d.fields.pool
      difficulty := keepOr sb.difficulty d.fields.difficulty
      damage := keepOr sb.damage d.fields.damage
      ed := keepOr sb.ed d.fields.ed
      ap := keepOr sb.ap d.fields.ap
      wrath := keepOr sb.wrath d.fields.wrath }

/-- Dialog.js lines 413-415 and 429: after re-applying the baseline, `ed` and
`ap` are normalized to full `{value, dice}` records, `damage` defaults to 0,
and `systemBaselineSnapshot` is the deep clone of the resulting `fields`.  This
is the "baseline snapshot of the host-computed fields" every later computation
starts from. -/
def baselineSnapshot (d : Dialog) : Fields :=
  let f := restoredFields d
  { f with
    ed := some (mergeED f.ed)
    ap := some (mergeED f.ap)
    damage := some (f.damage.getD 0) }

/-- Dialog.js lines 434-439: the manual-override snapshot is used only when it
is present and has at least one key. -/
def normalizedManual (d : Dialog) : Option ManualOverrides :=
  match d.manualOverrides with
  | some m => if m.hasAny then some m else none
  | none => none

/-- Dialog.js line 477: the pistols-while-engaged condition
`isEngaged && weapon?.isRanged && hasPistol`. -/
def pistolsEngagedActive (d : Dialog) : Bool :=
  d.actorEngaged && d.weaponIsRanged && d.weaponHasPistol

/-- JavaScript `String.prototype.toLowerCase()` on the character list of the
string (the range-band keys involved are plain ASCII words). -/
def lowerString (s : String) : String :=
  ⟨s.data.map Char.toLower⟩

/-- Dialog.js line 469: `String(dialog.fields?.range ?? "").toLowerCase()`. -/
def rangeBand (f : Fields) : String :=
  lowerString (f.range.getD "")

/-- The `pool` local variable after the engaged-pistol block: baseline pool
(dialog.js line 441), minus 1 when the short-range bonus die is suppressed for
an engaged pistol shot (lines 490-494). -/
def poolAfterEngaged (d : Dialog) : Int :=
  if pistolsEngagedActive d && (rangeBand (baselineSnapshot d) == "short")
  then (baselineSnapshot d).pool.getD 0 - 1
  else (baselineSnapshot d).pool.getD 0

/-- The `pool` local variable after the all-out attack block (dialog.js lines
507-511): plus 2 when all-out attack is selected. -/
def poolAfterAllOut (d : Dialog) : Int :=
  if (baselineSnapshot d).allOutAttack then poolAfterEngaged d + 2
  else poolAfterEngaged d

/-- The `pool` local variable after the charge block (dialog.js lines
513-517): plus 1 when charging is selected. -/
def poolAfterCharge (d : Dialog) : Int :=
  if (baselineSnapshot d).charging then poolAfterAllOut d + 1
  else poolAfterAllOut d

/-- The accumulated dice pool (the `pool` local variable of dialog.js at line
576): the charge stage plus the size-modifier pool bonus when non-zero
(lines 533-547). -/
def optionPool (d : Dialog) : Int :=
  match SIZE_MODIFIER_OPTIONS (baselineSnapshot d).sizeModifier with
  | some sm => if sm.pool ≠ 0 then poolAfterCharge d + sm.pool else poolAfterCharge d
  | none => poolAfterCharge d

/-- The `difficulty` local variable after the engaged-pistol block: baseline
difficulty (dialog.js line 442), plus 2 for an engaged pistol shot
(lines 477-482). -/
def difficultyAfterEngaged (d : Dialog) : Int :=
  if pistolsEngagedActive d then (baselineSnapshot d).difficulty.getD 0 + 2
  else (baselineSnapshot d).difficulty.getD 0

/-- The `difficulty` local variable after the vision block (dialog.js lines
523-531): the vision penalty (melee column for melee weapons, ranged column
otherwise) is added when strictly positive. -/
def difficultyAfterVision (d : Dialog) : Int :=
  match VISION_PENALTIES (baselineSnapshot d).visionPenalty with
  | some vp =>
    if (if d.weaponIsMelee then vp.melee else vp.ranged) > 0
    then difficultyAfterEngaged d + (if d.weaponIsMelee then vp.melee else vp.ranged)
    else difficultyAfterEngaged d
  | none => difficultyAfterEngaged d

/-- The `difficulty` local variable after the size block (dialog.js lines
533-547): the size-modifier DN penalty is added when non-zero. -/
def difficultyAfterSize (d : Dialog) : Int :=
  match SIZE_MODIFIER_OPTIONS (baselineSnapshot d).sizeModifier with
  | some sm =>
    if sm.difficulty ≠ 0 then difficultyAfterVision d + sm.difficulty
    else difficultyAfterVision d
  | none => difficultyAfterVision d

/-- The `coverDelta` of dialog.js line 560: selected cover difficulty minus
the status-derived default cover difficulty
(`dialog._combatOptionsDefaultCover ?? ""`). -/
def coverDelta (d : Dialog) : Int :=
  getCoverDifficulty (normalizeCoverKey (baselineSnapshot d).cover)
    - getCoverDifficulty (normalizeCoverKey (d.defaultCover.getD ""))

/-- The accumulated difficulty (the `difficulty` local variable of dialog.js
at line 576): the size stage plus the cover delta when non-zero (lines
558-566). -/
def optionDifficulty (d : Dialog) : Int :=
  if coverDelta d ≠ 0 then difficultyAfterSize d + coverDelta d
  else difficultyAfterSize d

/-- The accumulated damage (dialog.js lines 443, 450, 549-556, 570-574):
zeroed by disarm, otherwise the baseline damage. -/
def optionDamage (d : Dialog) : Int :=
  let snap := baselineSnapshot d
  if snap.disarm then 0 else snap.damage.getD 0

/-- The accumulated `ed.value` (dialog.js lines 444, 451, 549-556, 570-574). -/
def optionEdValue (d : Dialog) : Int :=
  let snap := baselineSnapshot d
  if snap.disarm then 0 else (mergeED snap.ed).value.getD 0

/-- The accumulated `ed.dice` (dialog.js lines 445, 452, 549-556, 570-574). -/
def optionEdDice (d : Dialog) : Int :=
  let snap := baselineSnapshot d
  if snap.disarm then 0 else (mergeED snap.ed).dice.getD 0

/-- `Number(fields.ap?.value ?? 0)` at dialog.js line 446; never modified by
any combat option. -/
def baseApValue (d : Dialog) : Int :=
  (mergeED (baselineSnapshot d).ap).value.getD 0

/-- `Number(fields.ap?.dice ?? 0)` at dialog.js line 447; never modified by
any combat option. -/
def baseApDice (d : Dialog) : Int :=
  (mergeED (baselineSnapshot d).ap).dice.getD 0

/-- `Number(fields.wrath ?? 0)` at dialog.js line 448; never modified by any
combat option. -/
def baseWrath (d : Dialog) : Int :=
  (baselineSnapshot d).wrath.getD 0

/-- Dialog.js lines 576-589: the delta record, computed from the accumulated
option values and the baseline snapshot, before the `Math.max(0, ...)` clamps
and before manual overrides are re-applied. -/
def computeDelta (d : Dialog) : Delta :=
  let snap := baselineSnapshot d
  { pool := optionPool d - snap.pool.getD 0
    difficulty := optionDifficulty d - snap.difficulty.getD 0
    damage := optionDamage d - snap.damage.getD 0
    edValue := optionEdValue d - (mergeED snap.ed).value.getD 0
    edDice := optionEdDice d - (mergeED snap.ed).dice.getD 0
    apValue := baseApValue d - (mergeED snap.ap).value.getD 0
    apDice := baseApDice d - (mergeED snap.ap).dice.getD 0 }

/-- Dialog.js lines 485-498: inside the engaged-pistol branch the code clears
`fields.aim` and raises `fields.pistolsInMelee`; no other option field is
mutated before the final assignment. -/
def fieldsAfterOptions (d : Dialog) : Fields :=
  if pistolsEngagedActive d
  then { baselineSnapshot d with aim := false, pistolsInMelee := true }
  else baselineSnapshot d

/-- Dialog.js lines 591-593: final pool, manual override winning, clamped at 0. -/
def finalPool (d : Dialog) : Int :=
  match (normalizedManual d).bind ManualOverrides.pool with
  | some v => max 0 v
  | none => max 0 (optionPool d)

/-- Dialog.js lines 594-596: final difficulty, manual override winning,
clamped at 0. -/
def finalDifficulty (d : Dialog) : Int :=
  match (normalizedManual d).bind ManualOverrides.difficulty with
  | some v => max 0 v
  | none => max 0 (optionDifficulty d)

/-- Dialog.js lines 597-601: final `ed`, manual override winning, then each
component clamped at 0. -/
def finalEd (d : Dialog) : PartialED :=
  let pair :=
    match (normalizedManual d).bind ManualOverrides.ed with
    | some p => p
    | none => (optionEdValue d, optionEdDice d)
  ⟨some (max 0 pair.1), some (max 0 pair.2)⟩

/-- Dialog.js lines 603-607: final `ap`, manual override winning, then each
component clamped at 0. -/
def finalAp (d : Dialog) : PartialED :=
  let pair :=
    match (normalizedManual d).bind ManualOverrides.ap with
    | some p => p
    | none => (baseApValue d, baseApDice d)
  ⟨some (max 0 pair.1), some (max 0 pair.2)⟩

/-- Dialog.js lines 609-611: final wrath, manual override winning, clamped
at 0. -/
def finalWrath (d : Dialog) : Int :=
  match (normalizedManual d).bind ManualOverrides.wrath with
  | some v => max 0 v
  | none => max 0 (baseWrath d)

/-- Dialog.js lines 613-615: final damage; a manual damage override is applied
verbatim, with no clamp. -/
def finalDamage (d : Dialog) : Int :=
  match (normalizedManual d).bind ManualOverrides.damage with
  | some v => v
  | none => optionDamage d

/-- Dialog.js lines 621-626: the final values are written into `fields`. -/
def fieldsAfterFinal (d : Dialog) : Fields :=
  { fieldsAfterOptions d with
    pool := some (finalPool d)
    difficulty := some (finalDifficulty d)
    damage := some (finalDamage d)
    ed := some (finalEd d)
    ap := some (finalAp d)
    wrath := some (finalWrath d) }

/-- Dialog.js lines 628-645: the guard of the no-option baseline restore:
no raw manual-override snapshot, not an engaged actor with a ranged weapon,
no combat option active on the final fields, and a numeric baseline pool. -/
def restoreGuard (d : Dialog) : Bool :=
  d.manualOverrides.isNone &&
  !(d.weaponIsRanged && d.actorEngaged) &&
  !combatOptionsActive (fieldsAfterFinal d) &&
  (baselineSnapshot d).pool.isSome

/-- Dialog.js lines 642-651: when the restore guard holds, pool, difficulty,
damage, ed and ap are restored from the baseline snapshot; wrath is not. -/
def fieldsAfterSafetyRestore (d : Dialog) : Fields :=
  let snap := baselineSnapshot d
  let f := fieldsAfterFinal d
  if restoreGuard d then
    { f with
      pool := some (snap.pool.getD 0)
      difficulty := some (snap.difficulty.getD (finalDifficulty d))
      damage := snap.damage
      ed := keepOr snap.ed f.ed
      ap := keepOr snap.ap f.ap }
  else f

/-- Shallow embedding of `applyCombatExtender(dialog)` (dialog.js lines
396-658): with no weapon the dialog is returned untouched (line 398);
otherwise the fields are replaced by the staged computation above and
`_combatExtenderDelta` is stored. -/
def applyCombatExtender (d : Dialog) : Dialog :=
  if d.hasWeapon then
    { d with fields := fieldsAfterSafetyRestore d, delta := some (computeDelta d) }
  else d

/-- The registered dialog script (dialog.js lines 318-330): on submission it
copies `dialog._combatExtenderDelta ?? null` into
`dialog.flags.combatExtender.delta`. -/
def dialogSubmitScript (d : Dialog) : Dialog :=
  { d with flagsDelta := some d.delta }

/-! ## The renderWeaponDialog hook (dialog.js lines 720-981) -/

/-- The Aim checkbox of the injected combat-options panel: whether the input
exists in the rendered fragment, and its `disabled` and `checked` DOM
properties. -/
structure AimCheckbox where
  present : Bool
  disabled : Bool
  checked : Bool
deriving DecidableEq, Repr

/-- Dialog.js lines 896-903: when the actor is engaged and the weapon is
ranged, the hook disables and unchecks the combat-options Aim checkbox (when
the input is present); otherwise the checkbox is left alone. -/
def adjustAimCheckbox (isEngaged isRanged : Bool) (cb : AimCheckbox) : AimCheckbox :=
  if isEngaged && isRanged && cb.present
  then { cb with disabled := true, checked := false }
  else cb

/-- The application state seen by the render guard: the `_isRendering` flag
plus the rest of the application and DOM state, abstracted to a type
parameter. -/
structure RenderApp (σ : Type) where
  isRendering : Bool
  state : σ
deriving DecidableEq, Repr

/-- Shallow embedding of the `renderWeaponDialog` hook control flow
(dialog.js lines 720-981).  `isWrathSystem` is the `game.system.id` test at
line 722; `body` is the whole hook body between the guard and the `finally`
(lines 731-971), as a state transformer: a normal completion, the early return
when the attack section is missing, and a thrown exception are all modelled by
the state `body` leaves behind, since in each of the three cases the code runs
`app._isRendering = false` (the `finally` at line 974 or the `catch` at line
978) and keeps whatever the body did so far.  The body never touches
`_isRendering`, which the type enforces. -/
def renderWeaponDialogHook {σ : Type} (isWrathSystem : Bool) (body : σ → σ)
    (app : RenderApp σ) : RenderApp σ :=
  if !isWrathSystem then app
  else if app.isRendering then app
  else ⟨false, body app.state⟩

/-! ## turn-effects.js: All-Out Attack condition sync (lines 9-30) -/

/-- The slice of a Wrath and Glory actor that `syncAllOutAttackCondition`
touches: its condition list, and whether the `hasCondition`, `addCondition`
and `removeCondition` functions of the host system API are present. -/
structure WActor where
  conditions : List String := []
  hasConditionFn : Bool := true
  addConditionFn : Bool := true
  removeConditionFn : Bool := true
deriving DecidableEq, Repr

/-- `actor.hasCondition(id)`: membership in the condition list. -/
def WActor.hasCondition (a : WActor) (c : String) : Bool :=
  a.conditions.contains c

/-- `actor.addCondition(id, ...)`: adds the condition. -/
def WActor.addCondition (a : WActor) (c : String) : WActor :=
  { a with conditions := c :: a.conditions }

/-- `actor.removeCondition(id)`: removes every copy of the condition. -/
def WActor.removeCondition (a : WActor) (c : String) : WActor :=
  { a with conditions := a.conditions.filter (· != c) }

/-- Shallow embedding of `syncAllOutAttackCondition(actor, enabled)`
(turn-effects.js lines 9-30).  The null-actor early return is outside the
model (the actor argument is always an actor here); `isWrathSystem` is the
`game.system?.id` test.  The returned boolean records whether
`actor.addCondition` was called. -/
def syncAllOutAttackCondition (isWrathSystem : Bool) (a : WActor)
    (enabled : Bool) : WActor × Bool :=
  if !isWrathSystem then (a, false)
  else if !a.hasConditionFn then (a, false)
  else if enabled then
    if a.hasCondition "all-out-attack" then (a, false)
    else if !a.addConditionFn then (a, false)
    else (a.addCondition "all-out-attack", true)
  else
    if !a.removeConditionFn then (a, false)
    else (a.removeCondition "all-out-attack", false)

/-! ## turn-effects.js: persistent damage (lines 78-300) -/

/-- A JavaScript number as seen by `sanitizePersistentDamageValue` after the
`Number(value)` coercion: NaN, an infinity, or a finite value (modelled as a
rational). -/
inductive JSNum where
  | nan : JSNum
  | posInf : JSNum
  | negInf : JSNum
  | num : ℚ → JSNum
deriving DecidableEq, Repr

/-- Shallow embedding of `sanitizePersistentDamageValue(value)`
(turn-effects.js lines 78-82): NaN and the infinities map to 0, a finite
number is floored and clamped below at 0. -/
def sanitizePersistentDamageValue : JSNum → Int
  | JSNum.nan => 0
  | JSNum.posInf => 0
  | JSNum.negInf => 0
  | JSNum.num q => max 0 ⌊q⌋

/-- The user interaction with the persistent-damage dialog: `none` models
Cancel (or closing the dialog), `some v` models pressing Apply with `v` the
value read from the number input (`none` inside when the input is missing, in
which case the code falls back to the pre-filled total). -/
def PromptAction : Type := Option (Option JSNum)

/-- Shallow embedding of `promptPersistentDamageAtTurnEnd(combatant)`
(turn-effects.js lines 211-300), with the host-dependent parts as inputs:
`raws` is the list of raw per-condition damage amounts, one per
persistent-damage condition the actor has, as resolved by
`evaluatePersistentDamage` before its final sanitization (override flag,
evaluated roll total, or configured default); `action` is the user reaction to
the dialog.  When no condition produced an entry the function returns `none`
and no dialog is shown (line 225).  Otherwise it returns the pre-filled total
(the `summary` at line 235, also the `value` of the number input) together
with the mortal wounds actually applied: `some m` exactly when the confirmed
result is non-null and strictly positive (line 276), `none` on cancel or on a
0 entry. -/
def promptPersistentDamageAtTurnEnd (raws : List JSNum)
    (action : Option (Option JSNum)) : Option (Int × Option Int) :=
  if raws.isEmpty then none
  else
    let amounts := raws.map sanitizePersistentDamageValue
    let summary := amounts.sum
    let result : Option Int :=
      match action with
      | none => none
      | some inputVal =>
        some (sanitizePersistentDamageValue (inputVal.getD (JSNum.num summary)))
    let applied : Option Int :=
      match result with
      | some n => if n > 0 then some n else none
      | none => none
    some (summary, applied)

/-! ## turn-effects.js: pending persistent-damage bookkeeping (lines 156-209,
423-469) -/

/-- The `pendingPersistentDamageCombatants` map, combat id to combatant id,
modelled as an association list with unique keys maintained by the
operations. -/
abbrev PendingMap : Type := List (String × String)

/-- `pendingPersistentDamageCombatants.get(combatId)`. -/
def pendingGet (m : PendingMap) (combatId : String) : Option String :=
  (m.find? (fun e => e.1 == combatId)).map (fun e => e.2)

/-- `pendingPersistentDamageCombatants.delete(combatId)`. -/
def pendingDelete (m : PendingMap) (combatId : String) : PendingMap :=
  m.filter (fun e => e.1 != combatId)

/-- `pendingPersistentDamageCombatants.set(combatId, combatantId)`
(turn-effects.js line 169, in `markPendingPersistentDamage`). -/
def pendingSet (m : PendingMap) (combatId combatantId : String) : PendingMap :=
  (combatId, combatantId) :: pendingDelete m combatId

/-- The slice of a `Combat` document read by `promptPendingPersistentDamage`:
its id and the ids of its current combatants. -/
structure CombatRef where
  id : String
  combatantIds : List String
deriving DecidableEq, Repr

/-- Shallow embedding of `promptPendingPersistentDamage(combat)`
(turn-effects.js lines 177-193): look up the pending combatant for this
combat; if there is none, do nothing; otherwise delete the entry first, then
prompt the combatant if it still exists in the combat.  The second component
is the combatant id that gets prompted, if any. -/
def promptPendingPersistentDamage (m : PendingMap) (combat : CombatRef) :
    PendingMap × Option String :=
  match pendingGet m combat.id with
  | none => (m, none)
  | some pendingId =>
    let m2 := pendingDelete m combat.id
    if combat.combatantIds.contains pendingId
    then (m2, some pendingId)
    else (m2, none)

/-- `cleanupPendingPersistentDamageForCombat(combatId)` (turn-effects.js lines
195-198), called from the `deleteCombat` hook (line 455). -/
def cleanupPendingPersistentDamageForCombat (m : PendingMap)
    (combatId : String) : PendingMap :=
  pendingDelete m combatId

/-- `cleanupPendingPersistentDamageForCombatant(combatant)` (turn-effects.js
lines 200-209), called from the `deleteCombatant` hook (line 465):
`parentCombatId` is `combatant.parent?.id`; the pending entry of the parent
combat is removed exactly when it names this combatant. -/
def cleanupPendingPersistentDamageForCombatant (m : PendingMap)
    (parentCombatId : Option String) (combatantId : String) : PendingMap :=
  match parentCombatId with
  | none => m
  | some cid =>
    match pendingGet m cid with
    | some pendingId =>
      if pendingId == combatantId then pendingDelete m cid else m
    | none => m

/-! ## Specification-side combinators

These phrase the amounts the specification talks about (the selected vision
penalty, the size-modifier pool bonus and DN penalty) as plain table lookups,
to compare against the accumulation the code performs. -/

/-- The vision penalty selected by a key: melee column for melee weapons,
ranged column otherwise; 0 for no (or an unknown) selection. -/
def visionPenaltyAmount (isMelee : Bool) (key : String) : Int :=
  match VISION_PENALTIES key with
  | some vp => if isMelee then vp.melee else vp.ranged
  | none => 0

/-- The dice-pool bonus of the selected size modifier; 0 for no selection. -/
def sizePoolBonus (key : String) : Int :=
  match SIZE_MODIFIER_OPTIONS key with
  | some sm => sm.pool
  | none => 0

/-- The DN penalty of the selected size modifier; 0 for no selection. -/
def sizeDifficultyPenalty (key : String) : Int :=
  match SIZE_MODIFIER_OPTIONS key with
  | some sm => sm.difficulty
  | none => 0

/-! ## Concrete dialog states used as test inputs -/

/-- A dialog with no combat option selected and a negative host-computed pool. -/
def noOptionNegativePoolDialog : Dialog := { fields := { pool := some (-1) } }

/-- A dialog with all-out attack selected and pool 3. -/
def allOutPoolDialog : Dialog := { fields := { pool := some 3, allOutAttack := true } }

/-- A dialog with no option selected whose baseline defines only the pool. -/
def noOptionPoolOnlyDialog : Dialog := { fields := { pool := some 0 } }

/-- A dialog with no option selected, a full numeric baseline, and a negative
wrath value. -/
def noOptionFramePoolDialog : Dialog :=
  { fields := { pool := some 4, difficulty := some 2, wrath := some (-1) } }

/-- A dialog with disarm selected and a negative armour-penetration value. -/
def disarmNegativeApDialog : Dialog :=
  { fields := { disarm := true, ap := some { value := some (-2), dice := some 0 } } }

/-- A dialog with disarm selected and non-negative damage fields. -/
def disarmSimpleDialog : Dialog :=
  { fields := { disarm := true, damage := some 7,
                ed := some { value := some 2, dice := some 1 },
                ap := some { value := some 1, dice := some 0 } } }

/-- A dialog for an engaged actor firing a pistol at short range. -/
def engagedPistolDialog : Dialog :=
  { weaponIsRanged := true, weaponHasPistol := true, actorEngaged := true,
    fields := { pool := some 5, difficulty := some 1, aim := true,
                range := some "short" } }

/-- A dialog carrying manual overrides for pool, damage and ed. -/
def manualOverrideDialog : Dialog :=
  { manualOverrides := some { pool := some (-5), damage := some (-7),
                              ed := some ((-1 : Int), (3 : Int)) } }

end CombatExtender

namespace CombatExtender

/-! ## Helper lemmas -/

lemma not_mem_filter_bne (l : List String) (c : String) :
    c ∉ l.filter (fun x => x != c) := by
  intro hmem
  have h := (List.mem_filter.mp hmem).2
  simp at h

lemma filter_bne_idem (l : List String) (c : String) :
    ((l.filter (fun x => x != c)).filter (fun x => x != c)) = l.filter (fun x => x != c) := by
  simp [List.filter_filter]

lemma pendingGet_pendingDelete (m : PendingMap) (c : String) :
    pendingGet (pendingDelete m c) c = none := by
  have hall : ∀ e ∈ pendingDelete m c, ¬(e.1 == c) = true := by
    intro e he
    have h2 := (List.mem_filter.mp he).2
    simp at h2 ⊢
    exact h2
  simp [pendingGet, List.find?_eq_none.mpr hall]

lemma promptPending_fst (m : PendingMap) (cb : CombatRef) :
    (promptPendingPersistentDamage m cb).1 =
      match pendingGet m cb.id with
      | none => m
      | some _ => pendingDelete m cb.id := by
  unfold promptPendingPersistentDamage
  cases h : pendingGet m cb.id with
  | none => rfl
  | some pid =>
    by_cases hc : pid ∈ cb.combatantIds <;> simp [hc]

lemma VISION_PENALTIES_nonneg (k : String) (vp : VisionPenalty)
    (h : VISION_PENALTIES k = some vp) : 0 ≤ vp.melee ∧ 0 ≤ vp.ranged := by
  unfold VISION_PENALTIES at h
  split_ifs at h <;> (cases h; constructor <;> decide)

lemma optionPool_closed (d : Dialog) :
    optionPool d = (baselineSnapshot d).pool.getD 0
      + (if pistolsEngagedActive d && (rangeBand (baselineSnapshot d) == "short") then -1 else 0)
      + (if (baselineSnapshot d).allOutAttack then 2 else 0)
      + (if (baselineSnapshot d).charging then 1 else 0)
      + sizePoolBonus (baselineSnapshot d).sizeModifier := by
  unfold optionPool poolAfterCharge poolAfterAllOut poolAfterEngaged sizePoolBonus
  cases hS : SIZE_MODIFIER_OPTIONS (baselineSnapshot d).sizeModifier <;>
    simp only [hS] <;> split_ifs <;> omega

lemma optionDifficulty_closed (d : Dialog) :
    optionDifficulty d = (baselineSnapshot d).difficulty.getD 0
      + (if pistolsEngagedActive d then 2 else 0)
      + visionPenaltyAmount d.weaponIsMelee (baselineSnapshot d).visionPenalty
      + sizeDifficultyPenalty (baselineSnapshot d).sizeModifier
      + coverDelta d := by
  unfold optionDifficulty difficultyAfterSize difficultyAfterVision difficultyAfterEngaged
    visionPenaltyAmount sizeDifficultyPenalty
  cases hV : VISION_PENALTIES (baselineSnapshot d).visionPenalty with
  | none =>
    cases hS : SIZE_MODIFIER_OPTIONS (baselineSnapshot d).sizeModifier <;>
      simp only [hV, hS] <;> split_ifs <;> omega
  | some vp =>
    have hnn := VISION_PENALTIES_nonneg _ _ hV
    cases hS : SIZE_MODIFIER_OPTIONS (baselineSnapshot d).sizeModifier <;>
      simp only [hV, hS] <;> split_ifs <;> omega

lemma applyCombatExtender_fields (d : Dialog) (hw : d.hasWeapon = true) :
    (applyCombatExtender d).fields = fieldsAfterSafetyRestore d := by
  simp [applyCombatExtender, hw]

lemma applyCombatExtender_delta (d : Dialog) (hw : d.hasWeapon = true) :
    (applyCombatExtender d).delta = some (computeDelta d) := by
  simp [applyCombatExtender, hw]

lemma restoreGuard_false_of_manual (d : Dialog) (m : ManualOverrides)
    (hm : d.manualOverrides = some m) : restoreGuard d = false := by
  simp [restoreGuard, hm]

lemma baselineSnapshot_disarm (d : Dialog) :
    (baselineSnapshot d).disarm = d.fields.disarm := by
  unfold baselineSnapshot restoredFields
  cases d.systemBaseline <;> rfl

lemma combatOptionsActive_baselineSnapshot (d : Dialog) :
    combatOptionsActive (baselineSnapshot d) = combatOptionsActive d.fields := by
  unfold combatOptionsActive baselineSnapshot restoredFields
  cases d.systemBaseline <;> rfl

lemma fieldsAfterFinal_disarm (d : Dialog) :
    (fieldsAfterFinal d).disarm = d.fields.disarm := by
  show (fieldsAfterOptions d).disarm = d.fields.disarm
  by_cases hp : pistolsEngagedActive d <;>
    simp [fieldsAfterOptions, hp, baselineSnapshot_disarm]

end CombatExtender

namespace CombatExtender

/-! ## Claim C1 -/

/-- Claim C1, counterexample: the claimed formula
`fields.pool = max 0 (baseline pool + all-out-attack bonus + charge bonus +
size pool bonus)` fails for a dialog with no option selected, no manual
override and a negative baseline pool: the no-option safety restore of
dialog.js lines 642-651 puts the baseline value back verbatim, so the final
pool is `-1` while the claimed value is `max 0 (-1) = 0`. -/
theorem C1_counterexample :
    noOptionNegativePoolDialog.actorEngaged = false ∧
    noOptionNegativePoolDialog.manualOverrides = none ∧
    (applyCombatExtender noOptionNegativePoolDialog).fields.pool = some (-1) ∧
    (applyCombatExtender noOptionNegativePoolDialog).fields.pool ≠
      some (max 0 ((baselineSnapshot noOptionNegativePoolDialog).pool.getD 0
        + (if (baselineSnapshot noOptionNegativePoolDialog).allOutAttack then 2 else 0)
        + (if (baselineSnapshot noOptionNegativePoolDialog).charging then 1 else 0)
        + sizePoolBonus (baselineSnapshot noOptionNegativePoolDialog).sizeModifier)) := by
  decide

/-- Claim C1, amended: for a weapon dialog whose actor is not engaged and that
has no manual-override snapshot, `applyCombatExtender` sets `fields.pool` to
`max 0 (baseline pool + 2 if allOutAttack + 1 if charging + size pool bonus)`
and `fields.difficulty` to `max 0 (baseline difficulty + the selected vision
penalty (melee column for melee weapons, ranged column otherwise) + the size
DN penalty + (cover difficulty of the selected cover minus cover difficulty of
the status-derived default cover))` — except when the no-option safety restore
applies (no combat option active on the final fields and a numeric baseline
pool), in which case pool and difficulty are restored from the baseline
snapshot instead. -/
theorem C1_pool_difficulty (d : Dialog) (hw : d.hasWeapon = true)
    (he : d.actorEngaged = false) (hm : d.manualOverrides = none) :
    (restoreGuard d = false →
      (applyCombatExtender d).fields.pool =
        some (max 0 ((baselineSnapshot d).pool.getD 0
          + (if (baselineSnapshot d).allOutAttack then 2 else 0)
          + (if (baselineSnapshot d).charging then 1 else 0)
          + sizePoolBonus (baselineSnapshot d).sizeModifier)) ∧
      (applyCombatExtender d).fields.difficulty =
        some (max 0 ((baselineSnapshot d).difficulty.getD 0
          + visionPenaltyAmount d.weaponIsMelee (baselineSnapshot d).visionPenalty
          + sizeDifficultyPenalty (baselineSnapshot d).sizeModifier
          + coverDelta d))) ∧
    (restoreGuard d = true →
      (applyCombatExtender d).fields.pool = (baselineSnapshot d).pool ∧
      (applyCombatExtender d).fields.difficulty =
        some ((baselineSnapshot d).difficulty.getD (finalDifficulty d))) := by
  have hpe : pistolsEngagedActive d = false := by
    simp [pistolsEngagedActive, he]
  have hman : normalizedManual d = none := by
    simp [normalizedManual, hm]
  have hop : optionPool d = (baselineSnapshot d).pool.getD 0
      + (if (baselineSnapshot d).allOutAttack then 2 else 0)
      + (if (baselineSnapshot d).charging then 1 else 0)
      + sizePoolBonus (baselineSnapshot d).sizeModifier := by
    rw [optionPool_closed, hpe]
    simp only [Bool.false_and, Bool.false_eq_true, if_false]
    omega
  have hod : optionDifficulty d = (baselineSnapshot d).difficulty.getD 0
      + visionPenaltyAmount d.weaponIsMelee (baselineSnapshot d).visionPenalty
      + sizeDifficultyPenalty (baselineSnapshot d).sizeModifier
      + coverDelta d := by
    rw [optionDifficulty_closed, hpe]
    simp only [Bool.false_eq_true, if_false]
    omega
  rw [applyCombatExtender_fields d hw]
  constructor
  · intro hguard
    unfold fieldsAfterSafetyRestore
    rw [hguard]
    simp only [Bool.false_eq_true, if_false]
    constructor
    · show some (finalPool d) = _
      rw [show finalPool d = max 0 (optionPool d) by simp [finalPool, hman], hop]
    · show some (finalDifficulty d) = _
      rw [show finalDifficulty d = max 0 (optionDifficulty d) by
        simp [finalDifficulty, hman], hod]
  · intro hguard
    have hpool : (baselineSnapshot d).pool.isSome = true := by
      have h := hguard
      unfold restoreGuard at h
      rw [Bool.and_eq_true] at h
      exact h.2
    unfold fieldsAfterSafetyRestore
    rw [hguard]
    refine ⟨?_, ?_⟩
    · show some ((baselineSnapshot d).pool.getD 0) = (baselineSnapshot d).pool
      cases hp : (baselineSnapshot d).pool with
      | none => rw [hp] at hpool; cases hpool
      | some n => simp [hp]
    · rfl

/-- Claim C1, witness: a dialog with all-out attack selected and pool 3 is not
restored, and gets pool `max 0 (3 + 2) = 5` and difficulty 0. -/
theorem C1_witness :
    restoreGuard allOutPoolDialog = false ∧
    (applyCombatExtender allOutPoolDialog).fields.pool = some 5 ∧
    (applyCombatExtender allOutPoolDialog).fields.difficulty = some 0 :=
  ⟨by decide,
   (((C1_pool_difficulty allOutPoolDialog rfl rfl rfl).1 (by decide)).1).trans (by decide),
   (((C1_pool_difficulty allOutPoolDialog rfl rfl rfl).1 (by decide)).2).trans (by decide)⟩

/-! ## Claim C2 -/

/-- Claim C2: for a weapon dialog whose actor has the engaged effect and whose
weapon is ranged with the pistol trait, `applyCombatExtender` adds 2 to the
accumulated difficulty, forces `fields.aim` to false, sets
`fields.pistolsInMelee` to true, and subtracts 1 from the accumulated pool
exactly when the computed range band is "short"; and for an engaged actor with
a ranged weapon the `renderWeaponDialog` hook disables and unchecks the Aim
checkbox.  The +2 and -1 are stated on the accumulated (pre-clamp) pool and
difficulty, which the final values are obtained from by `max 0` when no manual
override exists. -/
theorem C2_engaged_pistol (d : Dialog) (cb : AimCheckbox) (hw : d.hasWeapon = true)
    (he : d.actorEngaged = true) (hr : d.weaponIsRanged = true)
    (hp : d.weaponHasPistol = true) (hcb : cb.present = true) :
    optionDifficulty d = (baselineSnapshot d).difficulty.getD 0 + 2
      + visionPenaltyAmount d.weaponIsMelee (baselineSnapshot d).visionPenalty
      + sizeDifficultyPenalty (baselineSnapshot d).sizeModifier
      + coverDelta d ∧
    optionPool d = (baselineSnapshot d).pool.getD 0
      + (if rangeBand (baselineSnapshot d) == "short" then -1 else 0)
      + (if (baselineSnapshot d).allOutAttack then 2 else 0)
      + (if (baselineSnapshot d).charging then 1 else 0)
      + sizePoolBonus (baselineSnapshot d).sizeModifier ∧
    (applyCombatExtender d).fields.aim = false ∧
    (applyCombatExtender d).fields.pistolsInMelee = true ∧
    (adjustAimCheckbox d.actorEngaged d.weaponIsRanged cb).disabled = true ∧
    (adjustAimCheckbox d.actorEngaged d.weaponIsRanged cb).checked = false := by
  have hpe : pistolsEngagedActive d = true := by
    simp [pistolsEngagedActive, he, hr, hp]
  have hguard : restoreGuard d = false := by
    unfold restoreGuard
    rw [hr, he]
    simp
  refine ⟨?_, ?_, ?_, ?_, ?_, ?_⟩
  · rw [optionDifficulty_closed, hpe]
    simp only [if_true]
  · rw [optionPool_closed, hpe]
    simp only [Bool.true_and]
  · rw [applyCombatExtender_fields d hw]
    unfold fieldsAfterSafetyRestore
    rw [hguard]
    simp only [Bool.false_eq_true, if_false]
    show (fieldsAfterOptions d).aim = false
    simp [fieldsAfterOptions, hpe]
  · rw [applyCombatExtender_fields d hw]
    unfold fieldsAfterSafetyRestore
    rw [hguard]
    simp only [Bool.false_eq_true, if_false]
    show (fieldsAfterOptions d).pistolsInMelee = true
    simp [fieldsAfterOptions, hpe]
  · simp [adjustAimCheckbox, he, hr, hcb]
  · simp [adjustAimCheckbox, he, hr, hcb]

/-- Claim C2, witness: an engaged pistol shot at short range with baseline
pool 5 and difficulty 1 accumulates difficulty 3 and pool 4, clears the aim
field, raises pistolsInMelee, and the hook disables the Aim checkbox. -/
theorem C2_witness :
    optionDifficulty engagedPistolDialog = 3 ∧
    optionPool engagedPistolDialog = 4 ∧
    (applyCombatExtender engagedPistolDialog).fields.aim = false ∧
    (applyCombatExtender engagedPistolDialog).fields.pistolsInMelee = true ∧
    (adjustAimCheckbox engagedPistolDialog.actorEngaged
      engagedPistolDialog.weaponIsRanged ⟨true, false, true⟩).disabled = true :=
  ⟨((C2_engaged_pistol engagedPistolDialog ⟨true, false, true⟩ rfl rfl rfl rfl rfl).1).trans
      (by decide),
   ((C2_engaged_pistol engagedPistolDialog ⟨true, false, true⟩ rfl rfl rfl rfl rfl).2.1).trans
      (by decide),
   (C2_engaged_pistol engagedPistolDialog ⟨true, false, true⟩ rfl rfl rfl rfl rfl).2.2.1,
   (C2_engaged_pistol engagedPistolDialog ⟨true, false, true⟩ rfl rfl rfl rfl rfl).2.2.2.1,
   (C2_engaged_pistol engagedPistolDialog ⟨true, false, true⟩ rfl rfl rfl rfl rfl).2.2.2.2.1⟩

end CombatExtender

namespace CombatExtender

/-! ## Claim C3 -/

/-- Claim C3: for every field among pool, difficulty, ed, ap and wrath for
which a manual-override snapshot entry exists, `applyCombatExtender` sets the
final field to the override value clamped below at 0 (component-wise for ed
and ap), ignoring every combat-option modifier for that field; a manual
damage override is applied verbatim without clamping. -/
theorem C3_manual_overrides (d : Dialog) (m : ManualOverrides)
    (hw : d.hasWeapon = true) (hm : d.manualOverrides = some m) :
    (∀ v, m.pool = some v →
      (applyCombatExtender d).fields.pool = some (max 0 v)) ∧
    (∀ v, m.difficulty = some v →
      (applyCombatExtender d).fields.difficulty = some (max 0 v)) ∧
    (∀ p : Int × Int, m.ed = some p →
      (applyCombatExtender d).fields.ed = some ⟨some (max 0 p.1), some (max 0 p.2)⟩) ∧
    (∀ p : Int × Int, m.ap = some p →
      (applyCombatExtender d).fields.ap = some ⟨some (max 0 p.1), some (max 0 p.2)⟩) ∧
    (∀ v, m.wrath = some v →
      (applyCombatExtender d).fields.wrath = some (max 0 v)) ∧
    (∀ v, m.damage = some v →
      (applyCombatExtender d).fields.damage = some v) := by
  have hguard := restoreGuard_false_of_manual d m hm
  rw [applyCombatExtender_fields d hw]
  unfold fieldsAfterSafetyRestore
  rw [hguard]
  simp only [Bool.false_eq_true, if_false]
  refine ⟨?_, ?_, ?_, ?_, ?_, ?_⟩
  · intro v hv
    simp [fieldsAfterFinal, finalPool, normalizedManual, hm, ManualOverrides.hasAny, hv]
  · intro v hv
    simp [fieldsAfterFinal, finalDifficulty, normalizedManual, hm, ManualOverrides.hasAny, hv]
  · intro p hp
    simp [fieldsAfterFinal, finalEd, normalizedManual, hm, ManualOverrides.hasAny, hp]
  · intro p hp
    simp [fieldsAfterFinal, finalAp, normalizedManual, hm, ManualOverrides.hasAny, hp]
  · intro v hv
    simp [fieldsAfterFinal, finalWrath, normalizedManual, hm, ManualOverrides.hasAny, hv]
  · intro v hv
    simp [fieldsAfterFinal, finalDamage, normalizedManual, hm, ManualOverrides.hasAny, hv]

/-- Claim C3, witness: overrides pool `-5`, damage `-7` and ed `(-1, 3)` give
final pool `max 0 (-5) = 0`, ed `(0, 3)`, and damage `-7` kept verbatim. -/
theorem C3_witness :
    (applyCombatExtender manualOverrideDialog).fields.pool = some 0 ∧
    (applyCombatExtender manualOverrideDialog).fields.ed =
      some { value := some 0, dice := some 3 } ∧
    (applyCombatExtender manualOverrideDialog).fields.damage = some (-7) :=
  ⟨(((C3_manual_overrides manualOverrideDialog _ rfl rfl).1 (-5) rfl)).trans (by decide),
   (((C3_manual_overrides manualOverrideDialog _ rfl rfl).2.2.1 ((-1 : Int), (3 : Int))
      rfl)).trans (by decide),
   ((C3_manual_overrides manualOverrideDialog _ rfl rfl).2.2.2.2.2 (-7) rfl)⟩

/-! ## Claim C4 -/

/-- Claim C4: after every run of `applyCombatExtender` (with a weapon
present), `_combatExtenderDelta` records, for pool, difficulty, damage,
ed.value, ed.dice, ap.value and ap.dice, exactly the option-modified value
minus the system-baseline value, computed before the `max 0` clamps and
before manual overrides are re-applied (no combat option modifies ap, so its
delta components are the baseline minus itself); and the registered dialog
script copies the delta into `dialog.flags.combatExtender.delta` on
submission. -/
theorem C4_delta_sync (d : Dialog) (hw : d.hasWeapon = true) :
    (applyCombatExtender d).delta = some
      { pool := optionPool d - (baselineSnapshot d).pool.getD 0
        difficulty := optionDifficulty d - (baselineSnapshot d).difficulty.getD 0
        damage := optionDamage d - (baselineSnapshot d).damage.getD 0
        edValue := optionEdValue d - (mergeED (baselineSnapshot d).ed).value.getD 0
        edDice := optionEdDice d - (mergeED (baselineSnapshot d).ed).dice.getD 0
        apValue := baseApValue d - (mergeED (baselineSnapshot d).ap).value.getD 0
        apDice := baseApDice d - (mergeED (baselineSnapshot d).ap).dice.getD 0 } ∧
    (∀ e : Dialog, (dialogSubmitScript e).flagsDelta = some e.delta) :=
  ⟨applyCombatExtender_delta d hw, fun _ => rfl⟩

/-- Claim C4, witness: on the empty dialog all delta components are 0, and
submission copies the stored delta into the flags. -/
theorem C4_witness :
    (applyCombatExtender ({ } : Dialog)).delta =
      some { pool := 0, difficulty := 0, damage := 0, edValue := 0, edDice := 0,
             apValue := 0, apDice := 0 } ∧
    (dialogSubmitScript (applyCombatExtender ({ } : Dialog))).flagsDelta =
      some (applyCombatExtender ({ } : Dialog)).delta :=
  ⟨((C4_delta_sync { } rfl).1).trans (by decide),
   (C4_delta_sync { } rfl).2 (applyCombatExtender { })⟩

end CombatExtender

namespace CombatExtender

/-! ## Claim C5 -/

/-- Claim C5, counterexample: with disarm selected, no manual override and a
negative baseline ap value, the final ap does not keep its baseline value: the
component-wise `max 0` clamp of dialog.js lines 606-607 turns `-2` into 0. -/
theorem C5_counterexample :
    disarmNegativeApDialog.fields.disarm = true ∧
    disarmNegativeApDialog.manualOverrides = none ∧
    (baselineSnapshot disarmNegativeApDialog).ap =
      some { value := some (-2), dice := some 0 } ∧
    (applyCombatExtender disarmNegativeApDialog).fields.ap =
      some { value := some 0, dice := some 0 } ∧
    (applyCombatExtender disarmNegativeApDialog).fields.ap ≠
      (baselineSnapshot disarmNegativeApDialog).ap := by
  decide

/-- Claim C5, amended: for a weapon dialog with no manual-override snapshot,
when disarm is selected `applyCombatExtender` sets `fields.damage` to 0 and
`fields.ed.value` and `fields.ed.dice` to 0, while `fields.ap` is set to its
baseline value clamped below at 0 component-wise (not kept verbatim); when
disarm is not selected, damage keeps its baseline value, and ed keeps its
baseline value clamped below at 0 component-wise — verbatim instead when the
no-option safety restore applies. -/
theorem C5_disarm (d : Dialog) (hw : d.hasWeapon = true)
    (hm : d.manualOverrides = none) :
    (d.fields.disarm = true →
      (applyCombatExtender d).fields.damage = some 0 ∧
      (applyCombatExtender d).fields.ed = some { value := some 0, dice := some 0 } ∧
      (applyCombatExtender d).fields.ap =
        some { value := some (max 0 (baseApValue d)), dice := some (max 0 (baseApDice d)) }) ∧
    (d.fields.disarm = false →
      (applyCombatExtender d).fields.damage = (baselineSnapshot d).damage ∧
      (restoreGuard d = false →
        (applyCombatExtender d).fields.ed =
          some { value := some (max 0 ((mergeED (baselineSnapshot d).ed).value.getD 0)),
                 dice := some (max 0 ((mergeED (baselineSnapshot d).ed).dice.getD 0)) }) ∧
      (restoreGuard d = true →
        (applyCombatExtender d).fields.ed = (baselineSnapshot d).ed)) := by
  have hman : normalizedManual d = none := by
    simp [normalizedManual, hm]
  rw [applyCombatExtender_fields d hw]
  constructor
  · intro hdis
    have hsnapdis : (baselineSnapshot d).disarm = true := by
      rw [baselineSnapshot_disarm, hdis]
    have hact : combatOptionsActive (fieldsAfterFinal d) = true := by
      unfold combatOptionsActive
      rw [fieldsAfterFinal_disarm, hdis]
      simp
    have hguard : restoreGuard d = false := by
      unfold restoreGuard
      rw [hact]
      simp
    unfold fieldsAfterSafetyRestore
    rw [hguard]
    simp only [Bool.false_eq_true, if_false]
    refine ⟨?_, ?_, ?_⟩
    · show some (finalDamage d) = some 0
      rw [show finalDamage d = optionDamage d by simp [finalDamage, hman]]
      simp [optionDamage, hsnapdis]
    · show some (finalEd d) = _
      rw [show finalEd d = ⟨some (max 0 (optionEdValue d)), some (max 0 (optionEdDice d))⟩ by
        simp [finalEd, hman]]
      simp [optionEdValue, optionEdDice, hsnapdis]
    · show some (finalAp d) = _
      rw [show finalAp d = ⟨some (max 0 (baseApValue d)), some (max 0 (baseApDice d))⟩ by
        simp [finalAp, hman]]
  · intro hdis
    have hsnapdis : (baselineSnapshot d).disarm = false := by
      rw [baselineSnapshot_disarm, hdis]
    have hdam : (baselineSnapshot d).damage = some ((restoredFields d).damage.getD 0) := rfl
    refine ⟨?_, ?_, ?_⟩
    · unfold fieldsAfterSafetyRestore
      by_cases hguard : restoreGuard d
      · rw [hguard]
        rfl
      · rw [show restoreGuard d = false by simp [hguard]]
        simp only [Bool.false_eq_true, if_false]
        show some (finalDamage d) = (baselineSnapshot d).damage
        rw [show finalDamage d = optionDamage d by simp [finalDamage, hman]]
        rw [show optionDamage d = (baselineSnapshot d).damage.getD 0 by
          simp [optionDamage, hsnapdis]]
        rw [hdam]
        simp
    · intro hguard
      unfold fieldsAfterSafetyRestore
      rw [hguard]
      simp only [Bool.false_eq_true, if_false]
      show some (finalEd d) = _
      rw [show finalEd d = ⟨some (max 0 (optionEdValue d)), some (max 0 (optionEdDice d))⟩ by
        simp [finalEd, hman]]
      simp [optionEdValue, optionEdDice, hsnapdis]
    · intro hguard
      unfold fieldsAfterSafetyRestore
      rw [hguard]
      rfl

/-- Claim C5, witness: disarm with baseline damage 7, ed (2, 1) and ap (1, 0)
gives damage 0, ed (0, 0), and ap (1, 0) kept. -/
theorem C5_witness :
    (applyCombatExtender disarmSimpleDialog).fields.damage = some 0 ∧
    (applyCombatExtender disarmSimpleDialog).fields.ed =
      some { value := some 0, dice := some 0 } ∧
    (applyCombatExtender disarmSimpleDialog).fields.ap =
      some { value := some 1, dice := some 0 } :=
  ⟨((C5_disarm disarmSimpleDialog rfl rfl).1 rfl).1,
   ((C5_disarm disarmSimpleDialog rfl rfl).1 rfl).2.1,
   (((C5_disarm disarmSimpleDialog rfl rfl).1 rfl).2.2).trans (by decide)⟩

end CombatExtender

namespace CombatExtender

/-! ## Claim C6 -/

/-- Claim C6: the `renderWeaponDialog` hook is re-entrancy-guarded: a nested
invocation (one that finds `_isRendering` already true) returns the
application unchanged, and any outer invocation (one that starts with
`_isRendering` false) ends with `_isRendering` false again — by normal
completion, by the early return when the attack section is missing, or by an
exception, all three being covered by an arbitrary body transformer since the
`finally` and the `catch` both clear the flag. -/
theorem C6_render_guard {σ : Type} (sys : Bool) (body : σ → σ) (app : RenderApp σ) :
    (app.isRendering = true → renderWeaponDialogHook sys body app = app) ∧
    (app.isRendering = false → (renderWeaponDialogHook sys body app).isRendering = false) := by
  constructor
  · intro h
    cases sys <;> simp [renderWeaponDialogHook, h]
  · intro h
    cases sys <;> simp [renderWeaponDialogHook, h]

/-- Claim C6, witness: a nested invocation leaves a concrete application
untouched, and an outer invocation ends with the flag cleared. -/
theorem C6_witness :
    renderWeaponDialogHook true (fun n => n + 1) (⟨true, (0 : Nat)⟩ : RenderApp Nat) =
      (⟨true, 0⟩ : RenderApp Nat) ∧
    (renderWeaponDialogHook true (fun n => n + 1)
      (⟨false, (0 : Nat)⟩ : RenderApp Nat)).isRendering = false :=
  ⟨(C6_render_guard true (fun n => n + 1) ⟨true, 0⟩).1 rfl,
   (C6_render_guard true (fun n => n + 1) ⟨false, 0⟩).2 rfl⟩

/-! ## Claim C7 -/

/-- Claim C7: in the wrath-and-glory system, with the condition API present,
`syncAllOutAttackCondition(actor, enabled)` makes the actor carry the
"all-out-attack" condition exactly when `enabled` is true; when `enabled` is
true and the condition is already present, no `addCondition` call is made and
the actor is returned unchanged; and running the operation twice with the same
argument equals running it once (with no add call on the second run). -/
theorem C7_all_out_attack_sync (a : WActor) (e : Bool)
    (hH : a.hasConditionFn = true) (hA : a.addConditionFn = true)
    (hR : a.removeConditionFn = true) :
    ((syncAllOutAttackCondition true a e).1.hasCondition "all-out-attack") = e ∧
    (e = true → a.hasCondition "all-out-attack" = true →
      syncAllOutAttackCondition true a e = (a, false)) ∧
    syncAllOutAttackCondition true (syncAllOutAttackCondition true a e).1 e =
      ((syncAllOutAttackCondition true a e).1, false) := by
  cases e with
  | false =>
    refine ⟨?_, ?_, ?_⟩
    · simp [syncAllOutAttackCondition, hH, hR, WActor.hasCondition, WActor.removeCondition,
        not_mem_filter_bne]
    · intro h; exact absurd h (by simp)
    · simp [syncAllOutAttackCondition, hH, hR, WActor.removeCondition, filter_bne_idem]
  | true =>
    by_cases hc : a.hasCondition "all-out-attack"
    · refine ⟨?_, ?_, ?_⟩
      · simp [syncAllOutAttackCondition, hH, hc]
      · intro _ _; simp [syncAllOutAttackCondition, hH, hc]
      · simp [syncAllOutAttackCondition, hH, hc]
    · have hc2 : ("all-out-attack" ∈ a.conditions) = False := by
        simp [WActor.hasCondition] at hc
        simp [hc]
      refine ⟨?_, ?_, ?_⟩
      · simp [syncAllOutAttackCondition, hH, hA, hc, WActor.hasCondition,
          WActor.addCondition, hc2]
      · intro _ h; exact absurd h (by simp [hc])
      · simp [syncAllOutAttackCondition, hH, hA, hc, WActor.hasCondition,
          WActor.addCondition, hc2]

/-- Claim C7, witness: enabling on an actor that only has "fear" adds the
condition, and the second run is a no-op. -/
theorem C7_witness :
    ((syncAllOutAttackCondition true ({ conditions := ["fear"] } : WActor) true).1.hasCondition
      "all-out-attack") = true ∧
    syncAllOutAttackCondition true
        (syncAllOutAttackCondition true ({ conditions := ["fear"] } : WActor) true).1 true =
      ((syncAllOutAttackCondition true ({ conditions := ["fear"] } : WActor) true).1, false) :=
  ⟨(C7_all_out_attack_sync { conditions := ["fear"] } true rfl rfl rfl).1,
   (C7_all_out_attack_sync { conditions := ["fear"] } true rfl rfl rfl).2.2⟩

end CombatExtender

namespace CombatExtender

/-! ## Claim C8 -/

/-- Claim C8: every persistent-damage amount produced for the end-of-turn
prompt is a non-negative integer — `sanitizePersistentDamageValue` floors a
finite numeric input and maps NaN, the infinities and negative values to 0 —
the pre-filled total of the prompt equals the sum of the per-condition
amounts, and mortal wounds are applied only when the confirmed result is
non-null and strictly greater than 0 (on cancel, or on a 0 entry, nothing is
applied). -/
theorem C8_persistent_damage_safety :
    (∀ x : JSNum, 0 ≤ sanitizePersistentDamageValue x) ∧
    (∀ q : ℚ, sanitizePersistentDamageValue (JSNum.num q) = max 0 ⌊q⌋) ∧
    (sanitizePersistentDamageValue JSNum.nan = 0 ∧
      sanitizePersistentDamageValue JSNum.posInf = 0 ∧
      sanitizePersistentDamageValue JSNum.negInf = 0 ∧
      ∀ q : ℚ, q < 0 → sanitizePersistentDamageValue (JSNum.num q) = 0) ∧
    (∀ raws action s app, promptPersistentDamageAtTurnEnd raws action = some (s, app) →
      s = (raws.map sanitizePersistentDamageValue).sum) ∧
    (∀ raws action s m, promptPersistentDamageAtTurnEnd raws action = some (s, some m) →
      0 < m) ∧
    (∀ raws s app, promptPersistentDamageAtTurnEnd raws none = some (s, app) →
      app = none) := by
  refine ⟨?_, fun q => rfl, ⟨rfl, rfl, rfl, ?_⟩, ?_, ?_, ?_⟩
  · intro x
    cases x with
    | num q => exact le_max_left _ _
    | nan => exact le_refl 0
    | posInf => exact le_refl 0
    | negInf => exact le_refl 0
  · intro q hq
    have hf : ⌊q⌋ ≤ 0 := Int.floor_nonpos hq.le
    simp [sanitizePersistentDamageValue]
    omega
  · intro raws action s app h
    unfold promptPersistentDamageAtTurnEnd at h
    by_cases he : raws.isEmpty
    · simp [he] at h
    · simp [he] at h
      exact h.1.symm
  · intro raws action s m h
    unfold promptPersistentDamageAtTurnEnd at h
    by_cases he : raws.isEmpty
    · simp [he] at h
    · simp [he] at h
      rcases action with _ | v
      · simp at h
      · have h2 := h.2
        simp at h2
        exact h2.2 ▸ h2.1
  · intro raws s app h
    unfold promptPersistentDamageAtTurnEnd at h
    by_cases he : raws.isEmpty
    · simp [he] at h
    · simp [he] at h
      exact h.2.symm

/-- Claim C8, witness: a negative input sanitizes to a non-negative value; on
the raw amounts `[3, NaN]` the pre-filled total is 3, an applied result is
strictly positive, and cancelling applies nothing. -/
theorem C8_witness :
    (0 : Int) ≤ sanitizePersistentDamageValue (JSNum.num (-5)) ∧
    ((3 : Int) = ([JSNum.num 3, JSNum.nan].map sanitizePersistentDamageValue).sum) ∧
    (0 : Int) < 3 ∧
    (promptPersistentDamageAtTurnEnd [JSNum.num 3, JSNum.nan] none).map Prod.snd =
      some none :=
  ⟨C8_persistent_damage_safety.1 (JSNum.num (-5)),
   C8_persistent_damage_safety.2.2.2.1 [JSNum.num 3, JSNum.nan] (some none) 3 (some 3)
     (by decide),
   C8_persistent_damage_safety.2.2.2.2.1 [JSNum.num 3, JSNum.nan] (some none) 3 3
     (by decide),
   by
     rw [C8_persistent_damage_safety.2.2.2.2.2 [JSNum.num 3, JSNum.nan] 3 none (by decide)]
     decide⟩

/-! ## Claim C10 -/

/-- Claim C10: each combatant marked in `pendingPersistentDamageCombatants` is
prompted at most once per mark: `promptPendingPersistentDamage` deletes the
pending entry before prompting, so whichever of the two turn hooks runs second
finds no entry and does nothing; the `deleteCombat` cleanup clears the pending
entry of its combat so a subsequent prompt call does nothing; and after the
`deleteCombatant` cleanup for a combatant, that combatant is never the one
prompted. -/
theorem C10_pending_once (m : PendingMap) (cb : CombatRef) (k : String) :
    (promptPendingPersistentDamage (promptPendingPersistentDamage m cb).1 cb =
      ((promptPendingPersistentDamage m cb).1, none)) ∧
    (promptPendingPersistentDamage (cleanupPendingPersistentDamageForCombat m cb.id) cb =
      (cleanupPendingPersistentDamageForCombat m cb.id, none)) ∧
    ((promptPendingPersistentDamage
        (cleanupPendingPersistentDamageForCombatant m (some cb.id) k) cb).2 ≠ some k) := by
  refine ⟨?_, ?_, ?_⟩
  · rw [promptPending_fst]
    cases h : pendingGet m cb.id with
    | none =>
      unfold promptPendingPersistentDamage
      simp [h]
    | some pid =>
      unfold promptPendingPersistentDamage
      simp [pendingGet_pendingDelete]
  · unfold promptPendingPersistentDamage cleanupPendingPersistentDamageForCombat
    simp [pendingGet_pendingDelete]
  · unfold cleanupPendingPersistentDamageForCombatant
    cases h : pendingGet m cb.id with
    | none =>
      unfold promptPendingPersistentDamage
      simp [h]
    | some pid =>
      by_cases hk : pid = k
      · simp only [h, hk, if_pos rfl, beq_self_eq_true, if_true]
        unfold promptPendingPersistentDamage
        simp [pendingGet_pendingDelete]
      · have hbk : (pid == k) = false := by simp [hk]
        simp only [h, hbk, Bool.false_eq_true, if_false]
        unfold promptPendingPersistentDamage
        simp only [h]
        by_cases hc : pid ∈ cb.combatantIds
        · simp [hc]
          exact hk
        · simp [hc]

/-- Claim C10, witness: with combat "c1" pending for combatant "t1", a second
prompt call does nothing, and after the combatant cleanup "t1" is not
prompted. -/
theorem C10_witness :
    promptPendingPersistentDamage
        (promptPendingPersistentDamage [("c1", "t1")] ⟨"c1", ["t1"]⟩).1 ⟨"c1", ["t1"]⟩ =
      ((promptPendingPersistentDamage [("c1", "t1")] ⟨"c1", ["t1"]⟩).1, none) ∧
    (promptPendingPersistentDamage
        (cleanupPendingPersistentDamageForCombatant [("c1", "t1")] (some "c1") "t1")
        ⟨"c1", ["t1"]⟩).2 ≠ some "t1" :=
  ⟨(C10_pending_once [("c1", "t1")] ⟨"c1", ["t1"]⟩ "t1").1,
   (C10_pending_once [("c1", "t1")] ⟨"c1", ["t1"]⟩ "t1").2.2⟩

end CombatExtender

namespace CombatExtender

/-! ## Claim C9 -/

/-- Claim C9, counterexample: with no option active, no manual override, a
numeric baseline pool but an undefined baseline difficulty, the final
`fields.difficulty` is the recomputed clamped value `some 0`, not the
(undefined) baseline snapshot value, so `fields.difficulty` is not left
exactly equal to the baseline snapshot. -/
theorem C9_counterexample :
    combatOptionsActive noOptionPoolOnlyDialog.fields = false ∧
    (baselineSnapshot noOptionPoolOnlyDialog).pool.isSome = true ∧
    (baselineSnapshot noOptionPoolOnlyDialog).difficulty = none ∧
    (applyCombatExtender noOptionPoolOnlyDialog).fields.difficulty = some 0 ∧
    (applyCombatExtender noOptionPoolOnlyDialog).fields.difficulty ≠
      (baselineSnapshot noOptionPoolOnlyDialog).difficulty := by
  decide

/-- Claim C9, amended: for a dialog with no manual-override snapshot, whose
actor is not engaged with a ranged weapon, with no combat option active per
`combatOptionsActive` and a numeric baseline pool, `applyCombatExtender`
leaves pool, damage, ed and ap exactly equal to the baseline snapshot, leaves
difficulty equal to the baseline snapshot whenever the baseline difficulty is
itself a number, and still replaces `fields.wrath` by `max 0 wrath` rather
than restoring it from the baseline. -/
theorem C9_frame (d : Dialog) (hw : d.hasWeapon = true)
    (hm : d.manualOverrides = none)
    (her : (d.weaponIsRanged && d.actorEngaged) = false)
    (hopt : combatOptionsActive d.fields = false)
    (hpool : (baselineSnapshot d).pool.isSome = true) :
    (applyCombatExtender d).fields.pool = (baselineSnapshot d).pool ∧
    ((baselineSnapshot d).difficulty.isSome = true →
      (applyCombatExtender d).fields.difficulty = (baselineSnapshot d).difficulty) ∧
    (applyCombatExtender d).fields.damage = (baselineSnapshot d).damage ∧
    (applyCombatExtender d).fields.ed = (baselineSnapshot d).ed ∧
    (applyCombatExtender d).fields.ap = (baselineSnapshot d).ap ∧
    (applyCombatExtender d).fields.wrath =
      some (max 0 ((baselineSnapshot d).wrath.getD 0)) := by
  have hpe : pistolsEngagedActive d = false := by
    unfold pistolsEngagedActive
    cases hae : d.actorEngaged with
    | false => simp
    | true =>
      rw [hae, Bool.and_true] at her
      rw [her]
      simp
  have hopts : combatOptionsActive (fieldsAfterFinal d) = false := by
    have h1 : combatOptionsActive (fieldsAfterFinal d) =
        combatOptionsActive (fieldsAfterOptions d) := rfl
    have h2 : fieldsAfterOptions d = baselineSnapshot d := by
      simp [fieldsAfterOptions, hpe]
    rw [h1, h2, combatOptionsActive_baselineSnapshot, hopt]
  have hguard : restoreGuard d = true := by
    unfold restoreGuard
    rw [hm, her, hopts, hpool]
    rfl
  have hman : normalizedManual d = none := by
    simp [normalizedManual, hm]
  rw [applyCombatExtender_fields d hw]
  unfold fieldsAfterSafetyRestore
  rw [hguard]
  refine ⟨?_, ?_, ?_, ?_, ?_, ?_⟩
  · show some ((baselineSnapshot d).pool.getD 0) = (baselineSnapshot d).pool
    cases hp : (baselineSnapshot d).pool with
    | none => rw [hp] at hpool; cases hpool
    | some n => simp [hp]
  · intro hd
    show some ((baselineSnapshot d).difficulty.getD (finalDifficulty d)) =
      (baselineSnapshot d).difficulty
    cases hq : (baselineSnapshot d).difficulty with
    | none => rw [hq] at hd; cases hd
    | some n => simp [hq]
  · rfl
  · rfl
  · rfl
  · show some (finalWrath d) = _
    rw [show finalWrath d = max 0 (baseWrath d) by simp [finalWrath, hman]]
    rfl

/-- Claim C9, witness: with baseline pool 4, difficulty 2 and wrath -1 and no
option active, pool and difficulty are restored verbatim while wrath becomes
`max 0 (-1) = 0`. -/
theorem C9_witness :
    (applyCombatExtender noOptionFramePoolDialog).fields.pool = some 4 ∧
    (applyCombatExtender noOptionFramePoolDialog).fields.difficulty = some 2 ∧
    (applyCombatExtender noOptionFramePoolDialog).fields.wrath = some 0 :=
  ⟨((C9_frame noOptionFramePoolDialog rfl rfl rfl (by decide) (by decide)).1).trans
      (by decide),
   ((C9_frame noOptionFramePoolDialog rfl rfl rfl (by decide) (by decide)).2.1
      (by decide)).trans (by decide),
   ((C9_frame noOptionFramePoolDialog rfl rfl rfl (by decide) (by decide)).2.2.2.2.2).trans
      (by decide)⟩

end CombatExtender
